import Mathlib

/-!
# Verification of the F1 news pipeline core

Shallow embedding of the scoring, deduplication, moderation, scheduling and
durable-queue logic of the f1-news-bot repository, together with proofs of the
specification claims about it.

Conventions of the embedding:
* Python `str` becomes Lean `String`; where word-level processing happens we
  work on `List Char` (Python strings are sequences of code points, as is
  `String.toList`).
* Python floats become `ℚ`: every constant in the source is a decimal literal,
  so all arithmetic in scope is exact.
* Python `datetime` values become `ℤ` timestamps counted in seconds;
  `timedelta(hours=1)` is `3600` and so on.  Functions that read the wall
  clock (`datetime.utcnow()`) take the current time as an explicit `now`
  argument.
* Redis lists are Lean lists whose head is index 0 (the `LPUSH` side).
* `str.lower()` is modelled by `pyLowerChar`, covering the ASCII and Cyrillic
  ranges actually used by the repository's keyword tables.
-/

namespace F1News

/-! ## Python string primitives -/

/-- `str.lower()` on one code point: ASCII `A`–`Z`, Cyrillic `А`–`Я` and `Ё`. -/
def pyLowerChar (c : Char) : Char :=
  if c.isUpper then Char.ofNat (c.toNat + 32)
  else if 0x410 ≤ c.toNat ∧ c.toNat ≤ 0x42F then Char.ofNat (c.toNat + 0x20)
  else if c.toNat = 0x401 then Char.ofNat 0x451
  else c

/-- `str.lower()` on a list of code points. -/
def lowerChars (l : List Char) : List Char := l.map pyLowerChar

/-- `str.lower()` on a string. -/
def pyLower (s : String) : String := String.mk (lowerChars s.toList)

/-- Python's substring test `pat in text` (`List Char` level). -/
def containsSub (text pat : List Char) : Bool :=
  text.tails.any fun t => pat.isPrefixOf t

/-- Python's substring test `pat in text` (`String` level). -/
def pyIn (pat text : String) : Bool := containsSub text.toList pat.toList

/-- Helper for `str.split()`: accumulates the current word (reversed). -/
def pySplitAux : List Char → List Char → List (List Char)
  | [], acc => if acc = [] then [] else [acc.reverse]
  | c :: rest, acc =>
      if c.isWhitespace then
        if acc = [] then pySplitAux rest [] else acc.reverse :: pySplitAux rest []
      else pySplitAux rest (c :: acc)

/-- Python `str.split()` with no argument: split on whitespace runs, dropping
empty tokens. -/
def pySplitChars (l : List Char) : List (List Char) := pySplitAux l []

/-- Python `str.split()` on a `String`. -/
def pySplit (s : String) : List (List Char) := pySplitChars s.toList

/-! ## `src/collectors/base_collector.py` — keyword tables from
`src/config.py` -/

/-- `F1_KEYWORDS` from `src/config.py`. -/
def F1_KEYWORDS : List String := [
  "Formula 1", "F1", "Formula One", "Grand Prix", "GP", "racing", "race",
  "Hamilton", "Verstappen", "Leclerc", "Russell", "Sainz", "Perez", "Norris",
  "Mercedes", "Red Bull", "Ferrari", "McLaren", "Alpine", "Aston Martin",
  "AlphaTauri", "Alfa Romeo", "Williams", "Haas", "championship", "season",
  "qualifying", "pole position", "podium", "victory", "win", "driver",
  "constructor", "team", "car", "engine", "tire", "strategy", "pit stop",
  "safety car", "red flag", "yellow flag", "overtake", "crash", "accident",
  "penalty", "points", "leader", "standings", "circuit", "track", "lap",
  "формула 1", "ф1", "формула один", "гран при", "гонка", "автогонки",
  "хамилтон", "верстаппен", "леклер", "расселл", "сайнс", "перес", "норрис",
  "мерседес", "ред булл", "феррари", "макларен", "альпин", "астон мартин",
  "альфатаури", "альфа ромео", "уильямс", "хаас", "чемпионат", "сезон",
  "квалификация", "поул позиция", "подиум", "победа", "победить", "пилот",
  "конструктор", "команда", "машина", "двигатель", "шина", "стратегия",
  "пит-стоп", "болид безопасности", "красный флаг", "желтый флаг",
  "обгон", "авария", "штраф", "очки", "лидер", "турнирная таблица",
  "трасса", "круг", "гонщик", "автогонщик"]

/-- `HIGH_PRIORITY_KEYWORDS` from `src/config.py`. -/
def HIGH_PRIORITY_KEYWORDS : List String := [
  "formula 1", "f1", "формула 1", "ф1", "grand prix", "гран при",
  "racing", "гонка", "championship", "чемпионат", "verstappen", "верстаппен",
  "hamilton", "хамилтон", "ferrari", "феррари", "mercedes", "мерседес",
  "red bull", "ред булл"]

/-- `TEAM_NAMES` from `src/config.py`. -/
def TEAM_NAMES : List String := [
  "mercedes", "мерседес", "red bull", "ред булл", "ferrari", "феррари",
  "mclaren", "макларен", "alpine", "альпин", "aston martin", "астон мартин",
  "alphatauri", "альфатаури", "alfa romeo", "альфа ромео", "williams",
  "уильямс", "haas", "хаас"]

/-- `DRIVER_NAMES` from `src/config.py`. -/
def DRIVER_NAMES : List String := [
  "hamilton", "хамилтон", "verstappen", "верстаппен", "leclerc", "леклер",
  "russell", "расселл", "sainz", "сайнс", "perez", "перес", "norris",
  "норрис", "alonso", "алонсо", "ocon", "окон", "gasly", "гасли", "tsunoda",
  "цунода", "bottas", "боттас", "zhou", "чжоу", "albon", "альбон", "latifi",
  "латифи", "schumacher", "шумахер", "magnussen", "магнуссен"]

namespace BaseCollector

/-- The `special_terms` list local to
`BaseCollector.calculate_relevance_score`. -/
def special_terms : List String := [
  "grand prix", "гран при", "qualifying", "квалификация",
  "pole position", "поул позиция", "podium", "подиум",
  "championship", "чемпионат", "race", "гонка"]

/-- `BaseCollector.calculate_relevance_score` from
`src/collectors/base_collector.py` (lines 26–79), with floats as exact
rationals. -/
def calculate_relevance_score (title content : String) : ℚ :=
  let text := pyLower (title ++ " " ++ content)
  let keyword_matches := F1_KEYWORDS.countP fun keyword => pyIn (pyLower keyword) text
  let base_score : ℚ :=
    if keyword_matches > 0 then min ((keyword_matches : ℚ) * (1/10)) (6/10) else 0
  let priority_matches := HIGH_PRIORITY_KEYWORDS.countP fun keyword => pyIn keyword text
  let priority_boost : ℚ :=
    if priority_matches > 0 then min ((priority_matches : ℚ) * (3/10)) (8/10) else 0
  let team_matches := TEAM_NAMES.countP fun team => pyIn team text
  let driver_matches := DRIVER_NAMES.countP fun driver => pyIn driver text
  let team_driver_boost : ℚ :=
    if team_matches > 0 ∨ driver_matches > 0 then
      min (((team_matches + driver_matches : ℕ) : ℚ) * (2/10)) (6/10)
    else 0
  let title_text := pyLower title
  let title_keyword_matches := F1_KEYWORDS.countP fun keyword => pyIn (pyLower keyword) title_text
  let title_priority_matches := HIGH_PRIORITY_KEYWORDS.countP fun keyword => pyIn keyword title_text
  let title_boost : ℚ :=
    (if title_keyword_matches > 0 then min ((title_keyword_matches : ℚ) * (15/100)) (4/10) else 0) +
    (if title_priority_matches > 0 then min ((title_priority_matches : ℚ) * (25/100)) (5/10) else 0)
  let special_matches := special_terms.countP fun term => pyIn term text
  let special_boost : ℚ := min ((special_matches : ℚ) * (1/10)) (3/10)
  let final_score := base_score + priority_boost + team_driver_boost + title_boost + special_boost
  let final_score := max 0 (min final_score 1)
  if keyword_matches > 0 ∧ final_score < 1/10 then 1/10 else final_score

/-- `BaseCollector._calculate_similarity` from
`src/collectors/base_collector.py` (lines 129–140): word-set Jaccard
similarity over whitespace-split tokens.  A Python `set` is modelled as the
duplicate-free list `List.dedup` of the split, so `inter.length` and
`uni.length` are exactly `len(words1 & words2)` and `len(words1 | words2)`. -/
def calculate_similarity (text1 text2 : List Char) : ℚ :=
  let words1 := (pySplitChars text1).dedup
  let words2 := (pySplitChars text2).dedup
  if words1 = [] ∨ words2 = [] then 0
  else
    let inter := words1.filter fun w => decide (w ∈ words2)
    let uni := words1 ++ words2.filter fun w => decide (w ∉ words1)
    if uni = [] then 0 else (inter.length : ℚ) / (uni.length : ℚ)

/-- `NewsItem` from `src/models.py`, restricted to the fields the embedded
pipeline functions read. -/
structure NewsItem where
  id : String
  title : String
  content : String
  url : String
  source : String
deriving DecidableEq, Repr

/-- `BaseCollector.is_duplicate` from `src/collectors/base_collector.py`
(lines 111–127). -/
def is_duplicate (title content : String) (existing_items : List NewsItem) : Bool :=
  let title_lower := lowerChars title.toList
  let content_lower := lowerChars content.toList
  existing_items.any fun item =>
    decide ((8 : ℚ)/10 < calculate_similarity title_lower (lowerChars item.title.toList)) ||
    decide ((7 : ℚ)/10 < calculate_similarity (content_lower.take 200)
      ((lowerChars item.content.toList).take 200))

end BaseCollector

namespace NewsCollector

/-- `NewsCollector._calculate_similarity` from
`src/collectors/news_collector.py` (lines 112–123); the body is character for
character the same as `BaseCollector._calculate_similarity`. -/
def calculate_similarity (text1 text2 : List Char) : ℚ :=
  BaseCollector.calculate_similarity text1 text2

end NewsCollector

/-! ## `src/moderator/content_moderator.py` -/

/-- `ProcessedNewsItem` from `src/models.py`, restricted to the fields read by
the moderator, the scheduler and the Redis queue protocol. -/
structure ProcessedNewsItem where
  id : String
  title : String
  content : String
  url : String
  source : String
  relevance_score : ℚ
  summary : String
  sentiment : String
  importance_level : ℤ
deriving DecidableEq, Repr

namespace ContentModerator

/-- `self.spam_keywords` set in `ContentModerator.__init__`. -/
def spam_keywords : List String := [
  "spam", "scam", "fake", "clickbait", "advertisement", "promo",
  "buy now", "discount", "sale", "free money", "win big"]

/-- `self.quality_keywords` set in `ContentModerator.__init__`. -/
def quality_keywords : List String := [
  "breaking", "exclusive", "official", "confirmed", "report",
  "analysis", "insight", "update", "news", "announcement"]

/-- `self.importance_boosters` set in `ContentModerator.__init__`. -/
def importance_boosters : List String := [
  "championship", "title", "pole position", "victory", "crash",
  "injury", "contract", "transfer", "retirement", "comeback"]

/-- The `promotional_patterns` list local to `ContentModerator._is_spam`.
Every pattern is a literal string, so `re.search(p, text, re.IGNORECASE)` on
the already lower-cased `text` is a plain substring test. -/
def promotional_patterns : List String := [
  "click here", "buy now", "limited time", "act now",
  "guaranteed", "100%", "free", "discount"]

/-- `ContentModerator._is_spam` from `src/moderator/content_moderator.py`
(lines 89–108). -/
def is_spam (news_item : ProcessedNewsItem) : Bool :=
  let text := pyLower (news_item.title ++ " " ++ news_item.content)
  (spam_keywords.any fun keyword => pyIn keyword text) ||
  (promotional_patterns.any fun pat => pyIn pat text)

/-- `ContentModerator._calculate_quality_score` from
`src/moderator/content_moderator.py` (lines 110–146). -/
def calculate_quality_score (news_item : ProcessedNewsItem) : ℚ :=
  let score : ℚ := news_item.relevance_score * (3/10)
  let content_length := news_item.content.length
  let score := score +
    (if content_length > 200 then (2 : ℚ)/10
     else if content_length > 100 then 1/10 else 0)
  let text := pyLower (news_item.title ++ " " ++ news_item.content)
  let quality_matches := quality_keywords.countP fun keyword => pyIn keyword text
  let score := score + min ((quality_matches : ℚ) * (1/10)) (3/10)
  let score := score + (news_item.importance_level : ℚ) * (1/10)
  let score := score +
    (if news_item.sentiment = "positive" then (1 : ℚ)/10
     else if news_item.sentiment = "negative" then 5/100 else 0)
  let source_lower := pyLower news_item.source
  let score := score +
    (if pyIn "official" source_lower then (2 : ℚ)/10
     else if pyIn "formula1.com" source_lower then 15/100
     else if pyIn "motorsport.com" source_lower then 1/10 else 0)
  min score 1

/-- `ContentModerator._is_relevant` from `src/moderator/content_moderator.py`
(lines 148–156). -/
def is_relevant (news_item : ProcessedNewsItem) : Bool :=
  let text := pyLower (news_item.title ++ " " ++ news_item.content)
  decide (2 ≤ F1_KEYWORDS.countP fun keyword => pyIn (pyLower keyword) text)

/-- `ContentModerator._is_duplicate` from `src/moderator/content_moderator.py`
(lines 158–168): `len(set(title.lower().split())) < 3`.  `List.dedup` of the
split is the Python `set`, so the count is of *distinct* words. -/
def is_duplicate (news_item : ProcessedNewsItem) : Bool :=
  let title_words := (pySplit (pyLower news_item.title)).dedup
  decide (title_words.length < 3)

/-- Python `str.strip()`. -/
def pyStrip (s : String) : List Char :=
  ((s.toList.dropWhile Char.isWhitespace).reverse.dropWhile Char.isWhitespace).reverse

/-- One code point of Python's lowercase-cased test (ASCII plus Cyrillic). -/
def pyIsLowerChar (c : Char) : Bool :=
  c.isLower || (0x430 ≤ c.toNat ∧ c.toNat ≤ 0x44F) || c.toNat = 0x451

/-- One code point of Python's cased test (ASCII plus Cyrillic). -/
def pyIsCased (c : Char) : Bool :=
  c.isAlpha || (0x400 ≤ c.toNat ∧ c.toNat ≤ 0x4FF)

/-- Python `str.isupper()`: at least one cased code point and no lowercase
one. -/
def pyIsUpper (s : String) : Bool :=
  (s.toList.any pyIsCased) && (s.toList.all fun c => !(pyIsLowerChar c))

/-- `ContentModerator._is_properly_formatted` from
`src/moderator/content_moderator.py` (lines 170–184). -/
def is_properly_formatted (news_item : ProcessedNewsItem) : Bool :=
  if pyIsUpper news_item.title then false
  else if !(news_item.content.toList.any fun c => c = '.' ∨ c = '!' ∨ c = '?') then false
  else if ("http".toList).isPrefixOf (pyStrip news_item.content) then false
  else true

/-- `ContentModerator._has_important_keywords` from
`src/moderator/content_moderator.py` (lines 186–191). -/
def has_important_keywords (news_item : ProcessedNewsItem) : Bool :=
  let text := pyLower (news_item.title ++ " " ++ news_item.content)
  decide (0 < importance_boosters.countP fun keyword => pyIn keyword text)

/-- The moderation result dict built by `ContentModerator.moderate_news_item`. -/
structure ModerationResult where
  approved : Bool
  quality_score : ℚ
  reasons : List String
  suggestions : List String
deriving DecidableEq, Repr

/-- `ContentModerator.moderate_news_item` from
`src/moderator/content_moderator.py` (lines 33–87).  The source mutates a
result dict rule by rule; here each rule contributes its reason list and
`approved` is true exactly when no rejecting rule fired, which is the net
effect of the source's flag updates. -/
def moderate_news_item (news_item : ProcessedNewsItem) : ModerationResult :=
  if is_spam news_item then
    { approved := false, quality_score := 0, reasons := ["Spam content detected"],
      suggestions := [] }
  else
    let quality_score := calculate_quality_score news_item
    let reasons :=
      (if quality_score < 3/10 then ["Low quality content"] else []) ++
      (if is_relevant news_item then [] else ["Not relevant to F1"]) ++
      (if is_duplicate news_item then ["Duplicate content"] else []) ++
      (if news_item.content.length < 50 then ["Content too short"] else [])
    let suggestions :=
      (if is_properly_formatted news_item then [] else ["Improve formatting"]) ++
      (if has_important_keywords news_item then ["High importance content - prioritize"] else [])
    { approved := reasons.isEmpty, quality_score := quality_score,
      reasons := reasons, suggestions := suggestions }

end ContentModerator

/-! ## `src/moderator/publication_scheduler.py` -/

namespace PublicationScheduler

/-- The queue dict built by `PublicationScheduler.add_to_queue`. -/
structure QueueItem where
  news_item : ProcessedNewsItem
  priority : ℤ
  added_at : ℤ
  scheduled_for : ℤ
deriving DecidableEq, Repr

/-- `PublicationScheduler._calculate_schedule_time` from
`src/moderator/publication_scheduler.py` (lines 78–87); times in seconds. -/
def calculate_schedule_time (priority : ℤ) (now : ℤ) : ℤ :=
  if priority ≥ 5 then now
  else if priority ≥ 3 then now + 30 * 60
  else now + 2 * 3600

/-- The insertion loop of `PublicationScheduler.add_to_queue`
(`src/moderator/publication_scheduler.py` lines 59–69): insert before the
first queued item with lower priority, or with equal priority and a later
schedule time; append if no such item exists. -/
def insert_queue_item (queue_item : QueueItem) : List QueueItem → List QueueItem
  | [] => [queue_item]
  | item :: rest =>
      if item.priority < queue_item.priority ∨
          (item.priority = queue_item.priority ∧
            queue_item.scheduled_for < item.scheduled_for) then
        queue_item :: item :: rest
      else item :: insert_queue_item queue_item rest

/-- `PublicationScheduler.add_to_queue` from
`src/moderator/publication_scheduler.py` (lines 49–76), with the wall clock as
the explicit `now`. -/
def add_to_queue (queue : List QueueItem) (news_item : ProcessedNewsItem)
    (priority : ℤ) (now : ℤ) : List QueueItem :=
  insert_queue_item
    { news_item := news_item, priority := priority, added_at := now,
      scheduled_for := calculate_schedule_time priority now } queue

/-- `PublicationScheduler.remove_from_queue` from
`src/moderator/publication_scheduler.py` (lines 138–149): pop the first entry
whose item id matches, report whether one was found. -/
def remove_from_queue (queue : List QueueItem) (news_item_id : String) :
    Bool × List QueueItem :=
  (queue.any fun item => item.news_item.id == news_item_id,
   queue.eraseP fun item => item.news_item.id == news_item_id)

/-- `PublicationScheduler.can_publish_now` from
`src/moderator/publication_scheduler.py` (lines 23–34): prune the trailing
one-hour window, then compare against the hourly cap.  Returns the verdict
together with the pruned history the source assigns back to
`self.post_history`. -/
def can_publish_now (max_posts_per_hour : ℕ) (post_history : List ℤ) (now : ℤ) :
    Bool × List ℤ :=
  let pruned := post_history.filter fun post_time => decide (now - post_time < 3600)
  (decide (pruned.length < max_posts_per_hour), pruned)

/-- The scan of `PublicationScheduler.get_ready_for_publication`
(`src/moderator/publication_scheduler.py` lines 89–100) over a copy of the
queue: a due entry for which `can_publish_now` holds is moved to the ready
list, every other entry is kept.  `can_publish_now` is only evaluated for due
entries (Python's short-circuit `and`) and threads the pruned history. -/
def get_ready_loop (max_posts_per_hour : ℕ) (now : ℤ) :
    List QueueItem → List ℤ → List QueueItem × List QueueItem × List ℤ
  | [], post_history => ([], [], post_history)
  | item :: rest, post_history =>
      if item.scheduled_for ≤ now then
        let c := can_publish_now max_posts_per_hour post_history now
        let r := get_ready_loop max_posts_per_hour now rest c.2
        if c.1 then (item :: r.1, r.2.1, r.2.2) else (r.1, item :: r.2.1, r.2.2)
      else
        let r := get_ready_loop max_posts_per_hour now rest post_history
        (r.1, item :: r.2.1, r.2.2)

/-- `PublicationScheduler.get_ready_for_publication`: returns the ready items,
the remaining queue and the final `post_history`. -/
def get_ready_for_publication (max_posts_per_hour : ℕ) (queue : List QueueItem)
    (post_history : List ℤ) (now : ℤ) :
    List QueueItem × List QueueItem × List ℤ :=
  get_ready_loop max_posts_per_hour now queue post_history

/-- `PublicationScheduler.mark_as_published` from
`src/moderator/publication_scheduler.py` (lines 123–131): append the current
time to the rolling window. -/
def mark_as_published (post_history : List ℤ) (now : ℤ) : List ℤ :=
  post_history ++ [now]

/-- The non-strict queue order maintained by `add_to_queue`: higher priority
first, ties by earlier schedule time. -/
def keyLE (a b : QueueItem) : Prop :=
  b.priority < a.priority ∨ (a.priority = b.priority ∧ a.scheduled_for ≤ b.scheduled_for)

instance : DecidableRel keyLE := fun a b => by unfold keyLE; infer_instance

/-- The insertion guard of `add_to_queue`: the new entry `e` must be placed
strictly before `x`. -/
def strict_before (e x : QueueItem) : Prop :=
  x.priority < e.priority ∨ (x.priority = e.priority ∧ e.scheduled_for < x.scheduled_for)

instance : DecidableRel strict_before := fun a b => by unfold strict_before; infer_instance

/-- One mutation of the scheduler's in-memory queue. -/
inductive SchedulerOp where
  | add (news_item : ProcessedNewsItem) (priority : ℤ) (now : ℤ)
  | remove (news_item_id : String)

/-- Apply one queue operation. -/
def apply_op (queue : List QueueItem) : SchedulerOp → List QueueItem
  | .add news_item priority now => add_to_queue queue news_item priority now
  | .remove news_item_id => (remove_from_queue queue news_item_id).2

/-- Run a sequence of queue operations from the empty queue of
`PublicationScheduler.__init__`. -/
def apply_ops (ops : List SchedulerOp) : List QueueItem :=
  ops.foldl apply_op []

end PublicationScheduler

/-! ## `src/services/redis_service.py` -/

namespace RedisService

/-- The dict pushed by `RedisService.mark_news_as_published`. -/
structure PublishedRecord where
  news_id : String
  published_at : ℤ
  message_id : Option ℤ
deriving DecidableEq, Repr

/-- The Redis keys used by `RedisService`, as explicit state.  A Redis list is
a Lean list whose head is index 0; `LPUSH` prepends at the head.  A key's
time-to-live is `none` until `EXPIRE` first sets it.  The JSON round-trip of a
queue entry is modelled as the identity on `ProcessedNewsItem`. -/
structure RedisState where
  moderation_queue : List ProcessedNewsItem
  moderation_queue_ttl : Option ℤ
  published : List PublishedRecord
  published_ttl : Option ℤ
deriving DecidableEq, Repr

/-- The state with both lists absent, before any push. -/
def emptyState : RedisState :=
  { moderation_queue := [], moderation_queue_ttl := none,
    published := [], published_ttl := none }

/-- `RedisService.add_news_to_moderation_queue` from
`src/services/redis_service.py` (lines 25–69): `LPUSH` the serialized item
(prepend at the head), then `EXPIRE` the list to 24 hours. -/
def add_news_to_moderation_queue (st : RedisState) (news_item : ProcessedNewsItem) :
    Bool × RedisState :=
  (true,
   { st with moderation_queue := news_item :: st.moderation_queue,
             moderation_queue_ttl := some 86400 })

/-- `RedisService.get_news_from_moderation_queue` from
`src/services/redis_service.py` (lines 71–121): `LRANGE key 0 (limit-1)`
reads from the head without removing.  When `limit = 0` the stop index `-1`
denotes the last element, so the whole list is returned. -/
def get_news_from_moderation_queue (st : RedisState) (limit : ℕ) :
    List ProcessedNewsItem :=
  if limit = 0 then st.moderation_queue else st.moderation_queue.take limit

/-- `RedisService.remove_news_from_moderation_queue` from
`src/services/redis_service.py` (lines 123–142): scan for the first entry
whose `id` matches and `LREM` that one serialized value. -/
def remove_news_from_moderation_queue (st : RedisState) (news_id : String) :
    Bool × RedisState :=
  match st.moderation_queue.find? fun news_data => news_data.id == news_id with
  | some news_data =>
      (true, { st with moderation_queue := st.moderation_queue.erase news_data })
  | none => (false, st)

/-- `RedisService.mark_news_as_published` from `src/services/redis_service.py`
(lines 144–165): attempt the removal (its boolean result is discarded), then
`LPUSH` a published record and `EXPIRE` the published list to 7 days. -/
def mark_news_as_published (st : RedisState) (news_id : String)
    (message_id : Option ℤ) (now : ℤ) : Bool × RedisState :=
  let st1 := (remove_news_from_moderation_queue st news_id).2
  (true,
   { st1 with
       published := { news_id := news_id, published_at := now,
                      message_id := message_id } :: st1.published,
       published_ttl := some (86400 * 7) })

end RedisService

/-! ## Concrete items used by witnesses and counterexamples -/

/-- A plain, non-spam item whose title has three words but only one distinct
word. -/
def shortTitleItem : ProcessedNewsItem :=
  { id := "cx5", title := "go go go",
    content := "An ordinary paragraph about racing strategy in the rain.",
    url := "http://example.com/a", source := "example", relevance_score := 1/2,
    summary := "", sentiment := "neutral", importance_level := 3 }

/-- An item whose body trips the spam check (`buy now`, `guaranteed`). -/
def spamItem : ProcessedNewsItem :=
  { id := "w4", title := "Some title", content := "Buy now! Guaranteed winner!!!",
    url := "http://example.com/b", source := "example", relevance_score := 9/10,
    summary := "", sentiment := "positive", importance_level := 5 }

/-- A generic enriched item #1. -/
def sampleItemA : ProcessedNewsItem :=
  { id := "a", title := "First sample", content := "First sample body.",
    url := "http://example.com/one", source := "example", relevance_score := 4/5,
    summary := "s", sentiment := "neutral", importance_level := 4 }

/-- A generic enriched item #2. -/
def sampleItemB : ProcessedNewsItem :=
  { id := "b", title := "Second sample", content := "Second sample body.",
    url := "http://example.com/two", source := "example", relevance_score := 3/5,
    summary := "s", sentiment := "neutral", importance_level := 2 }

/-- Batch member whose title equals the queried title (Jaccard 1). -/
def batchItemSame : BaseCollector.NewsItem :=
  { id := "n1", title := "red bull wins the race", content := "body text here",
    url := "u1", source := "s1" }

/-- Batch member sharing no word with the queried title or body. -/
def batchItemOther : BaseCollector.NewsItem :=
  { id := "n2", title := "alpha beta gamma", content := "delta",
    url := "u2", source := "s2" }

/-- Scheduler queue entry for `sampleItemA`, due at time 0. -/
def queueEntryA : PublicationScheduler.QueueItem :=
  { news_item := sampleItemA, priority := 5, added_at := 0, scheduled_for := 0 }

/-- Scheduler queue entry for `sampleItemB`, due at time 0. -/
def queueEntryB : PublicationScheduler.QueueItem :=
  { news_item := sampleItemB, priority := 5, added_at := 0, scheduled_for := 0 }

/-! ## Theorems -/

/-- The clamp-then-floor shape closing
`BaseCollector.calculate_relevance_score`: every value of it is in `[0, 1]`,
and is at least `1/10` when the keyword count is positive. -/
theorem finalize_bounds (km : ℕ) (s : ℚ) :
    (0 ≤ if km > 0 ∧ max 0 (min s 1) < 1/10 then (1 : ℚ)/10 else max 0 (min s 1)) ∧
    ((if km > 0 ∧ max 0 (min s 1) < 1/10 then (1 : ℚ)/10 else max 0 (min s 1)) ≤ 1) ∧
    (0 < km →
      (1 : ℚ)/10 ≤ if km > 0 ∧ max 0 (min s 1) < 1/10 then (1 : ℚ)/10 else max 0 (min s 1)) := by
  refine ⟨?_, ?_, ?_⟩
  · split
    · norm_num
    · exact le_max_left _ _
  · split
    · norm_num
    · exact max_le (by norm_num) (min_le_right _ _)
  · intro h
    split
    · exact le_refl _
    · rename_i hneg
      rcases not_and_or.mp hneg with h1 | h2
      · exact absurd h h1
      · exact not_lt.mp h2

/-- C3: for every title and body, `calculate_relevance_score` returns a value
in `[0, 1]`, and whenever at least one general F1 keyword occurs in the
lower-cased title+body text the score is at least `0.1` (the floor rule
forces a summed score below `0.1` up to exactly `0.1`). -/
theorem relevance_score_bounds_and_floor (title content : String) :
    0 ≤ BaseCollector.calculate_relevance_score title content ∧
    BaseCollector.calculate_relevance_score title content ≤ 1 ∧
    (0 < F1_KEYWORDS.countP
        (fun keyword => pyIn (pyLower keyword) (pyLower (title ++ " " ++ content))) →
      (1 : ℚ)/10 ≤ BaseCollector.calculate_relevance_score title content) :=
  ⟨(finalize_bounds _ _).1, (finalize_bounds _ _).2.1,
   fun h => (finalize_bounds _ _).2.2 h⟩

/-- Witness for `relevance_score_bounds_and_floor`: the title `"F1 pole lap"`
matches a general keyword, so the theorem yields a score of at least `0.1`. -/
theorem relevance_score_bounds_and_floor_witness :
    0 < F1_KEYWORDS.countP
        (fun keyword => pyIn (pyLower keyword) (pyLower ("F1 pole lap" ++ " " ++ "short body"))) ∧
    (1 : ℚ)/10 ≤ BaseCollector.calculate_relevance_score "F1 pole lap" "short body" :=
  ⟨by decide, (relevance_score_bounds_and_floor "F1 pole lap" "short body").2.2 (by decide)⟩

/-- The entry built by `add_to_queue` is present in the resulting queue. -/
theorem self_mem_insert_queue_item (e : PublicationScheduler.QueueItem) :
    ∀ q : List PublicationScheduler.QueueItem,
      e ∈ PublicationScheduler.insert_queue_item e q := by
  intro q
  induction q with
  | nil => simp [PublicationScheduler.insert_queue_item]
  | cons x xs ih =>
    unfold PublicationScheduler.insert_queue_item
    split
    · exact List.mem_cons_self _ _
    · exact List.mem_cons_of_mem x ih

/-- C7: the schedule time stored by `add_to_queue` for priority `p` at
enqueue time `now` is `now` when `p ≥ 5`, `now + 30` minutes when
`3 ≤ p < 5`, and `now + 2` hours when `p < 3`. -/
theorem calculate_schedule_time_tiers (priority now : ℤ) :
    (5 ≤ priority → PublicationScheduler.calculate_schedule_time priority now = now) ∧
    (3 ≤ priority → priority < 5 →
      PublicationScheduler.calculate_schedule_time priority now = now + 30 * 60) ∧
    (priority < 3 →
      PublicationScheduler.calculate_schedule_time priority now = now + 2 * 3600) ∧
    (∀ (queue : List PublicationScheduler.QueueItem) (news_item : ProcessedNewsItem),
      ({ news_item := news_item, priority := priority, added_at := now,
         scheduled_for := PublicationScheduler.calculate_schedule_time priority now } :
        PublicationScheduler.QueueItem) ∈
      PublicationScheduler.add_to_queue queue news_item priority now) := by
  refine ⟨fun h => ?_, fun h1 h2 => ?_, fun h => ?_,
    fun queue news_item => self_mem_insert_queue_item _ queue⟩ <;>
    unfold PublicationScheduler.calculate_schedule_time
  · rw [if_pos (by omega : priority ≥ 5)]
  · rw [if_neg (by omega : ¬ priority ≥ 5), if_pos (by omega : priority ≥ 3)]
  · rw [if_neg (by omega : ¬ priority ≥ 5), if_neg (by omega : ¬ priority ≥ 3)]

/-- Witness for `calculate_schedule_time_tiers` at priorities 5, 3 and 1. -/
theorem calculate_schedule_time_tiers_witness :
    PublicationScheduler.calculate_schedule_time 5 0 = 0 ∧
    PublicationScheduler.calculate_schedule_time 3 100 = 100 + 30 * 60 ∧
    PublicationScheduler.calculate_schedule_time 1 7 = 7 + 2 * 3600 ∧
    ({ news_item := sampleItemA, priority := 5, added_at := 0,
       scheduled_for := PublicationScheduler.calculate_schedule_time 5 0 } :
      PublicationScheduler.QueueItem) ∈
      PublicationScheduler.add_to_queue [] sampleItemA 5 0 :=
  ⟨(calculate_schedule_time_tiers 5 0).1 (by decide),
   (calculate_schedule_time_tiers 3 100).2.1 (by decide) (by decide),
   (calculate_schedule_time_tiers 1 7).2.2.1 (by decide),
   (calculate_schedule_time_tiers 5 0).2.2.2 [] sampleItemA⟩

/-- C10: `_calculate_similarity` is total, lands in `[0, 1]`, returns `0`
whenever either text splits into no words, and the copy in
`news_collector.py` agrees with the one in `base_collector.py`. -/
theorem calculate_similarity_total_and_bounded (text1 text2 : List Char) :
    (0 ≤ BaseCollector.calculate_similarity text1 text2 ∧
     BaseCollector.calculate_similarity text1 text2 ≤ 1) ∧
    (pySplitChars text1 = [] ∨ pySplitChars text2 = [] →
      BaseCollector.calculate_similarity text1 text2 = 0) ∧
    NewsCollector.calculate_similarity text1 text2 =
      BaseCollector.calculate_similarity text1 text2 := by
  refine ⟨?_, ?_, rfl⟩
  · simp only [BaseCollector.calculate_similarity]
    split
    · norm_num
    · split
      · norm_num
      · rename_i hne hu
        constructor
        · exact div_nonneg (Nat.cast_nonneg _) (Nat.cast_nonneg _)
        · have hlen :
              ((pySplitChars text1).dedup.filter fun w =>
                decide (w ∈ (pySplitChars text2).dedup)).length ≤
              ((pySplitChars text1).dedup ++ (pySplitChars text2).dedup.filter fun w =>
                decide (w ∉ (pySplitChars text1).dedup)).length := by
            rw [List.length_append]
            exact le_trans (List.length_filter_le _ _) (Nat.le_add_right _ _)
          have hpos : 0 <
              ((pySplitChars text1).dedup ++ (pySplitChars text2).dedup.filter fun w =>
                decide (w ∉ (pySplitChars text1).dedup)).length :=
            List.length_pos.mpr hu
          rw [div_le_one (by exact_mod_cast hpos)]
          exact_mod_cast hlen
  · intro h
    simp only [BaseCollector.calculate_similarity]
    rw [if_pos]
    rcases h with h | h
    · exact Or.inl (by rw [h]; rfl)
    · exact Or.inr (by rw [h]; rfl)

/-- Witness for `calculate_similarity_total_and_bounded`: an all-whitespace
first text has no words, so the similarity is `0`. -/
theorem calculate_similarity_total_and_bounded_witness :
    pySplitChars ("   ".toList) = [] ∧
    BaseCollector.calculate_similarity ("   ".toList) ("ab".toList) = 0 :=
  ⟨by decide,
   (calculate_similarity_total_and_bounded ("   ".toList) ("ab".toList)).2.1
     (Or.inl (by decide))⟩

/-- C4: when the spam check fires, `moderate_news_item` returns immediately:
not approved, the spam reason as the only reason, the quality score left at
`0.0`, and no suggestion. -/
theorem moderate_spam_short_circuit (news_item : ProcessedNewsItem)
    (h : ContentModerator.is_spam news_item = true) :
    ContentModerator.moderate_news_item news_item =
      { approved := false, quality_score := 0,
        reasons := ["Spam content detected"], suggestions := [] } := by
  simp [ContentModerator.moderate_news_item, h]

/-- Witness for `moderate_spam_short_circuit`: the body
`"Buy now! Guaranteed winner!!!"` trips the spam check. -/
theorem moderate_spam_short_circuit_witness :
    ContentModerator.is_spam spamItem = true ∧
    ContentModerator.moderate_news_item spamItem =
      { approved := false, quality_score := 0,
        reasons := ["Spam content detected"], suggestions := [] } :=
  ⟨by decide, moderate_spam_short_circuit spamItem (by decide)⟩

/-- C5 (amended): for every non-spam item, the moderator's duplicate
heuristic appends `"Duplicate content"` and forces rejection exactly when the
number of *distinct* lower-cased title words is below 3 (`len(set(...))` in
the source), not the raw word count. -/
theorem moderator_duplicate_rule_distinct_words (news_item : ProcessedNewsItem)
    (h : ContentModerator.is_spam news_item = false) :
    ("Duplicate content" ∈ (ContentModerator.moderate_news_item news_item).reasons ↔
      (pySplit (pyLower news_item.title)).dedup.length < 3) ∧
    ((pySplit (pyLower news_item.title)).dedup.length < 3 →
      (ContentModerator.moderate_news_item news_item).approved = false) := by
  have hdup : ContentModerator.is_duplicate news_item =
      decide ((pySplit (pyLower news_item.title)).dedup.length < 3) := rfl
  constructor
  · simp only [ContentModerator.moderate_news_item, h, Bool.false_eq_true, if_false,
      List.mem_append]
    constructor
    · intro hmem
      rcases hmem with ((h1 | h2) | h3) | h4
      · revert h1; split <;> simp
      · revert h2; split <;> simp
      · revert h3
        split
        · rename_i hd
          rw [hdup, decide_eq_true_eq] at hd
          exact fun _ => hd
        · simp
      · revert h4; split <;> simp
    · intro hlt
      refine Or.inl (Or.inr ?_)
      rw [hdup]
      simp [hlt]
  · intro hlt
    simp only [ContentModerator.moderate_news_item, h, Bool.false_eq_true, if_false]
    rw [hdup]
    simp [hlt, List.isEmpty_eq_false_iff_exists_mem]

/-- Witness for `moderator_duplicate_rule_distinct_words` on a non-spam item
with a one-distinct-word title. -/
theorem moderator_duplicate_rule_distinct_words_witness :
    ("Duplicate content" ∈ (ContentModerator.moderate_news_item shortTitleItem).reasons ↔
      (pySplit (pyLower shortTitleItem.title)).dedup.length < 3) ∧
    ((pySplit (pyLower shortTitleItem.title)).dedup.length < 3 →
      (ContentModerator.moderate_news_item shortTitleItem).approved = false) :=
  moderator_duplicate_rule_distinct_words shortTitleItem (by decide)

/-- Shared evaluation helper: for a non-spam item flagged by the duplicate
heuristic, the duplicate reason is reported and the item is rejected. -/
theorem duplicate_reason_of_flags (news_item : ProcessedNewsItem)
    (hs : ContentModerator.is_spam news_item = false)
    (hd : ContentModerator.is_duplicate news_item = true) :
    "Duplicate content" ∈ (ContentModerator.moderate_news_item news_item).reasons ∧
    (ContentModerator.moderate_news_item news_item).approved = false := by
  constructor
  · simp only [ContentModerator.moderate_news_item, hs, Bool.false_eq_true, if_false,
      hd, if_true, List.mem_append]
    simp
  · simp only [ContentModerator.moderate_news_item, hs, Bool.false_eq_true, if_false,
      hd, if_true]
    simp [List.isEmpty_eq_false_iff_exists_mem]

/-- Counterexample to C5 as stated: `"go go go"` has three words, so the
claim says the duplicate rule must not reject, yet the item is rejected with
the duplicate-content reason because only one *distinct* word remains after
the `set(...)`. -/
theorem short_title_three_words_still_rejected :
    ContentModerator.is_spam shortTitleItem = false ∧
    (pySplit shortTitleItem.title).length = 3 ∧
    "Duplicate content" ∈ (ContentModerator.moderate_news_item shortTitleItem).reasons ∧
    (ContentModerator.moderate_news_item shortTitleItem).approved = false :=
  ⟨by decide, by decide,
   (duplicate_reason_of_flags shortTitleItem (by decide) (by decide)).1,
   (duplicate_reason_of_flags shortTitleItem (by decide) (by decide)).2⟩

/-- C8: `is_duplicate` fires whenever some batch member's lower-cased title
has word-set Jaccard similarity above `0.8` with the queried title, and stays
quiet when every batch member is at most `0.8` title-similar and at most
`0.7` similar on the first 200 characters of the lower-cased bodies. -/
theorem is_duplicate_similarity_thresholds :
    (∀ (title content : String) (batch : List BaseCollector.NewsItem)
        (item : BaseCollector.NewsItem), item ∈ batch →
      (8 : ℚ)/10 < BaseCollector.calculate_similarity (lowerChars title.toList)
          (lowerChars item.title.toList) →
      BaseCollector.is_duplicate title content batch = true) ∧
    (∀ (title content : String) (batch : List BaseCollector.NewsItem),
      (∀ item ∈ batch,
        BaseCollector.calculate_similarity (lowerChars title.toList)
            (lowerChars item.title.toList) ≤ 8/10 ∧
        BaseCollector.calculate_similarity ((lowerChars content.toList).take 200)
            ((lowerChars item.content.toList).take 200) ≤ 7/10) →
      BaseCollector.is_duplicate title content batch = false) := by
  constructor
  · intro title content batch item hmem hsim
    simp only [BaseCollector.is_duplicate, List.any_eq_true]
    exact ⟨item, hmem, by simp only [Bool.or_eq_true, decide_eq_true_eq]
                          exact Or.inl (by simpa using hsim)⟩
  · intro title content batch h
    simp only [BaseCollector.is_duplicate, List.any_eq_false]
    intro item hmem
    obtain ⟨h1, h2⟩ := h item hmem
    simp only [Bool.or_eq_true, decide_eq_true_eq, not_or, not_lt]
    exact ⟨by simpa using h1, by simpa using h2⟩

/-- Shared evaluation helper: the Jaccard similarity of a text with itself is
`1` once it has at least one word. -/
theorem calculate_similarity_self (t : List Char) (h : pySplitChars t ≠ []) :
    BaseCollector.calculate_similarity t t = 1 := by
  have hd : (pySplitChars t).dedup ≠ [] := by
    simpa [List.dedup_eq_nil] using h
  have hfs : (pySplitChars t).dedup.filter
      (fun w => decide (w ∈ (pySplitChars t).dedup)) = (pySplitChars t).dedup :=
    List.filter_eq_self.mpr fun a ha => by simpa using ha
  have hfn : (pySplitChars t).dedup.filter
      (fun w => decide (w ∉ (pySplitChars t).dedup)) = [] := by
    rw [List.filter_eq_nil_iff]
    intro a ha
    simpa using ha
  simp only [BaseCollector.calculate_similarity, hfs, hfn, List.append_nil]
  rw [if_neg (by simpa using hd), if_neg hd, div_self]
  exact Nat.cast_ne_zero.mpr (by simpa [List.length_eq_zero] using hd)

/-- Shared evaluation helper: texts sharing no word have Jaccard similarity
`0`. -/
theorem calculate_similarity_disjoint (t1 t2 : List Char)
    (h : ∀ w ∈ pySplitChars t1, w ∉ pySplitChars t2) :
    BaseCollector.calculate_similarity t1 t2 = 0 := by
  simp only [BaseCollector.calculate_similarity]
  split
  · rfl
  · have hfilter : (pySplitChars t1).dedup.filter
        (fun w => decide (w ∈ (pySplitChars t2).dedup)) = [] := by
      rw [List.filter_eq_nil_iff]
      intro a ha
      simp only [decide_eq_true_eq]
      exact fun hmem => h a (List.mem_dedup.mp ha) (List.mem_dedup.mp hmem)
    rw [hfilter]
    split
    · rfl
    · simp

/-- Witness for `is_duplicate_similarity_thresholds`: an identical title
(Jaccard 1) is flagged; fully disjoint words (Jaccard 0) are not. -/
theorem is_duplicate_similarity_thresholds_witness :
    BaseCollector.is_duplicate "red bull wins the race" "some body" [batchItemSame] = true ∧
    BaseCollector.is_duplicate "one two three" "four" [batchItemOther] = false := by
  constructor
  · refine is_duplicate_similarity_thresholds.1 "red bull wins the race" "some body"
      [batchItemSame] batchItemSame (by decide) ?_
    show (8 : ℚ)/10 < BaseCollector.calculate_similarity
      (lowerChars "red bull wins the race".toList)
      (lowerChars "red bull wins the race".toList)
    rw [calculate_similarity_self _ (by decide)]
    norm_num
  · refine is_duplicate_similarity_thresholds.2 "one two three" "four" [batchItemOther] ?_
    intro item hmem
    have hi : item = batchItemOther := by simpa using hmem
    subst hi
    constructor
    · show BaseCollector.calculate_similarity (lowerChars "one two three".toList)
        (lowerChars "alpha beta gamma".toList) ≤ 8/10
      rw [calculate_similarity_disjoint _ _ (by decide)]
      norm_num
    · show BaseCollector.calculate_similarity ((lowerChars "four".toList).take 200)
        ((lowerChars "delta".toList).take 200) ≤ 7/10
      rw [calculate_similarity_disjoint _ _ (by decide)]
      norm_num

/-- `keyLE` is transitive. -/
theorem keyLE_trans {a b c : PublicationScheduler.QueueItem}
    (h1 : PublicationScheduler.keyLE a b) (h2 : PublicationScheduler.keyLE b c) :
    PublicationScheduler.keyLE a c := by
  unfold PublicationScheduler.keyLE at *
  omega

/-- A strictly-before entry is in particular no worse. -/
theorem strict_before_keyLE {e x : PublicationScheduler.QueueItem}
    (h : PublicationScheduler.strict_before e x) : PublicationScheduler.keyLE e x := by
  unfold PublicationScheduler.strict_before at h
  unfold PublicationScheduler.keyLE
  omega

/-- Strictly-before transports along `keyLE` on the right. -/
theorem strict_before_of_keyLE {e x y : PublicationScheduler.QueueItem}
    (h1 : PublicationScheduler.strict_before e x) (h2 : PublicationScheduler.keyLE x y) :
    PublicationScheduler.strict_before e y := by
  unfold PublicationScheduler.strict_before at *
  unfold PublicationScheduler.keyLE at h2
  omega

/-- If the insertion guard fails, the scanned entry is no worse than the new
one. -/
theorem keyLE_of_not_strict_before {e x : PublicationScheduler.QueueItem}
    (h : ¬ PublicationScheduler.strict_before e x) : PublicationScheduler.keyLE x e := by
  unfold PublicationScheduler.strict_before at h
  unfold PublicationScheduler.keyLE
  omega

/-- Membership after insertion: the new entry or an old one. -/
theorem mem_insert_queue_item {y e : PublicationScheduler.QueueItem}
    {q : List PublicationScheduler.QueueItem}
    (h : y ∈ PublicationScheduler.insert_queue_item e q) : y = e ∨ y ∈ q := by
  induction q with
  | nil => simpa [PublicationScheduler.insert_queue_item] using h
  | cons x xs ih =>
    unfold PublicationScheduler.insert_queue_item at h
    split at h
    · rcases List.mem_cons.mp h with h' | h'
      · exact Or.inl h'
      · exact Or.inr h'
    · rcases List.mem_cons.mp h with h' | h'
      · exact Or.inr (h' ▸ List.mem_cons_self x xs)
      · rcases ih h' with h'' | h''
        · exact Or.inl h''
        · exact Or.inr (List.mem_cons_of_mem x h'')

/-- The insertion loop of `add_to_queue` keeps the queue sorted. -/
theorem pairwise_insert_queue_item {e : PublicationScheduler.QueueItem}
    {q : List PublicationScheduler.QueueItem}
    (h : List.Pairwise PublicationScheduler.keyLE q) :
    List.Pairwise PublicationScheduler.keyLE (PublicationScheduler.insert_queue_item e q) := by
  induction q with
  | nil => simp [PublicationScheduler.insert_queue_item]
  | cons x xs ih =>
    rw [List.pairwise_cons] at h
    obtain ⟨hx, hxs⟩ := h
    unfold PublicationScheduler.insert_queue_item
    split
    · rename_i hc
      refine List.pairwise_cons.mpr ⟨?_, List.pairwise_cons.mpr ⟨hx, hxs⟩⟩
      intro y hy
      rcases List.mem_cons.mp hy with rfl | hmem
      · exact strict_before_keyLE hc
      · exact keyLE_trans (strict_before_keyLE hc) (hx y hmem)
    · rename_i hc
      refine List.pairwise_cons.mpr ⟨?_, ih hxs⟩
      intro y hy
      rcases mem_insert_queue_item hy with rfl | hmem
      · exact keyLE_of_not_strict_before hc
      · exact hx y hmem

/-- Both scheduler mutations preserve sortedness. -/
theorem pairwise_apply_op {q : List PublicationScheduler.QueueItem}
    (h : List.Pairwise PublicationScheduler.keyLE q) (op : PublicationScheduler.SchedulerOp) :
    List.Pairwise PublicationScheduler.keyLE (PublicationScheduler.apply_op q op) := by
  cases op with
  | add news_item priority now => exact pairwise_insert_queue_item h
  | remove news_item_id =>
    exact List.Pairwise.sublist (List.eraseP_sublist q) h

/-- Folding scheduler operations preserves sortedness. -/
theorem pairwise_foldl_apply_op (ops : List PublicationScheduler.SchedulerOp) :
    ∀ q, List.Pairwise PublicationScheduler.keyLE q →
      List.Pairwise PublicationScheduler.keyLE
        (ops.foldl PublicationScheduler.apply_op q) := by
  induction ops with
  | nil => intro q h; exact h
  | cons op rest ih =>
    intro q h
    exact ih _ (pairwise_apply_op h op)

/-- Stability of the insertion loop: on a sorted queue the new entry lands
after every old entry that is not strictly worse, in particular after every
entry with an equal key. -/
theorem insert_queue_item_stable (e : PublicationScheduler.QueueItem) :
    ∀ q : List PublicationScheduler.QueueItem,
      List.Pairwise PublicationScheduler.keyLE q →
      ∃ l₁ l₂, q = l₁ ++ l₂ ∧
        PublicationScheduler.insert_queue_item e q = l₁ ++ e :: l₂ ∧
        ∀ x ∈ l₂, PublicationScheduler.strict_before e x := by
  intro q
  induction q with
  | nil => exact fun _ => ⟨[], [], rfl, rfl, by simp⟩
  | cons x xs ih =>
    intro h
    rw [List.pairwise_cons] at h
    obtain ⟨hx, hxs⟩ := h
    unfold PublicationScheduler.insert_queue_item
    split
    · rename_i hc
      refine ⟨[], x :: xs, rfl, rfl, ?_⟩
      intro y hy
      rcases List.mem_cons.mp hy with rfl | hmem
      · exact hc
      · exact strict_before_of_keyLE hc (hx y hmem)
    · obtain ⟨l₁, l₂, hq, hins, hworse⟩ := ih hxs
      exact ⟨x :: l₁, l₂, by rw [List.cons_append, hq], by rw [List.cons_append, hins], hworse⟩

/-- C6: after every sequence of `add_to_queue`/`remove_from_queue` operations
from the empty queue the publication queue is sorted by (priority descending,
`scheduled_for` ascending), and insertion is stable: on a sorted queue the
new entry is placed after all entries it does not strictly precede, so
insertion order among equal keys is preserved. -/
theorem publication_queue_sorted_and_stable :
    (∀ ops : List PublicationScheduler.SchedulerOp,
      List.Pairwise PublicationScheduler.keyLE (PublicationScheduler.apply_ops ops)) ∧
    (∀ (e : PublicationScheduler.QueueItem) (q : List PublicationScheduler.QueueItem),
      List.Pairwise PublicationScheduler.keyLE q →
      ∃ l₁ l₂, q = l₁ ++ l₂ ∧
        PublicationScheduler.insert_queue_item e q = l₁ ++ e :: l₂ ∧
        ∀ x ∈ l₂, PublicationScheduler.strict_before e x) :=
  ⟨fun ops => pairwise_foldl_apply_op ops [] (by simp),
   fun e q h => insert_queue_item_stable e q h⟩

/-- Witness for `publication_queue_sorted_and_stable` on a concrete operation
sequence and a concrete sorted singleton queue. -/
theorem publication_queue_sorted_and_stable_witness :
    List.Pairwise PublicationScheduler.keyLE
      (PublicationScheduler.apply_ops
        [PublicationScheduler.SchedulerOp.add sampleItemA 5 0,
         PublicationScheduler.SchedulerOp.add sampleItemB 1 0,
         PublicationScheduler.SchedulerOp.remove "missing"]) ∧
    (∃ l₁ l₂, [queueEntryB] = l₁ ++ l₂ ∧
      PublicationScheduler.insert_queue_item queueEntryA [queueEntryB] = l₁ ++ queueEntryA :: l₂ ∧
      ∀ x ∈ l₂, PublicationScheduler.strict_before queueEntryA x) :=
  ⟨publication_queue_sorted_and_stable.1 _,
   publication_queue_sorted_and_stable.2 queueEntryA [queueEntryB] (by simp)⟩

/-- Pruning the publish window is idempotent. -/
theorem filter_window_idem (post_history : List ℤ) (now : ℤ) :
    ((post_history.filter fun t => decide (now - t < 3600)).filter
      fun t => decide (now - t < 3600)) =
    post_history.filter fun t => decide (now - t < 3600) := by
  apply List.filter_eq_self.mpr
  intro a ha
  simpa using (List.mem_filter.mp ha).2

/-- Drain scan with a full window: nothing is returned and every entry is
kept in order. -/
theorem get_ready_loop_full (max_posts_per_hour : ℕ) (now : ℤ) :
    ∀ (queue : List PublicationScheduler.QueueItem) (post_history : List ℤ),
      max_posts_per_hour ≤
        (post_history.filter fun t => decide (now - t < 3600)).length →
      (PublicationScheduler.get_ready_loop max_posts_per_hour now queue post_history).1 = [] ∧
      (PublicationScheduler.get_ready_loop max_posts_per_hour now queue post_history).2.1 =
        queue := by
  intro queue
  induction queue with
  | nil => exact fun _ _ => ⟨rfl, rfl⟩
  | cons x xs ih =>
    intro post_history h
    by_cases hd : x.scheduled_for ≤ now
    · have hc : (PublicationScheduler.can_publish_now max_posts_per_hour post_history now).1 =
          false := by
        simp only [PublicationScheduler.can_publish_now, decide_eq_false_iff_not, not_lt]
        exact h
      have hrec := ih (PublicationScheduler.can_publish_now max_posts_per_hour post_history now).2
        (by simpa [PublicationScheduler.can_publish_now, filter_window_idem] using h)
      simp only [PublicationScheduler.get_ready_loop, hd, if_true, hc, Bool.false_eq_true,
        if_false]
      exact ⟨hrec.1, by rw [hrec.2]⟩
    · have hrec := ih post_history h
      simp only [PublicationScheduler.get_ready_loop, hd, if_false]
      exact ⟨hrec.1, by rw [hrec.2]⟩

/-- Drain scan with at least one free slot: every due entry is returned (in
order) and exactly the non-due entries are kept. -/
theorem get_ready_loop_free (max_posts_per_hour : ℕ) (now : ℤ) :
    ∀ (queue : List PublicationScheduler.QueueItem) (post_history : List ℤ),
      (post_history.filter fun t => decide (now - t < 3600)).length < max_posts_per_hour →
      (PublicationScheduler.get_ready_loop max_posts_per_hour now queue post_history).1 =
        queue.filter (fun x => decide (x.scheduled_for ≤ now)) ∧
      (PublicationScheduler.get_ready_loop max_posts_per_hour now queue post_history).2.1 =
        queue.filter (fun x => !decide (x.scheduled_for ≤ now)) := by
  intro queue
  induction queue with
  | nil => exact fun _ _ => ⟨rfl, rfl⟩
  | cons x xs ih =>
    intro post_history h
    by_cases hd : x.scheduled_for ≤ now
    · have hc : (PublicationScheduler.can_publish_now max_posts_per_hour post_history now).1 =
          true := by
        simp only [PublicationScheduler.can_publish_now, decide_eq_true_eq]
        exact h
      have hrec := ih (PublicationScheduler.can_publish_now max_posts_per_hour post_history now).2
        (by simpa [PublicationScheduler.can_publish_now, filter_window_idem] using h)
      simp only [PublicationScheduler.get_ready_loop, hd, if_true, hc, List.filter_cons,
        decide_eq_true_eq, Bool.not_true, Bool.false_eq_true, if_false]
      exact ⟨by rw [hrec.1], hrec.2⟩
    · have hrec := ih post_history h
      have hneg : decide (x.scheduled_for ≤ now) = false := by simp [hd]
      simp only [PublicationScheduler.get_ready_loop]
      rw [if_neg hd]
      simp [List.filter_cons, hneg, hrec.1, hrec.2]

/-- C2 (amended): when the trailing one-hour window already holds the hourly
cap, `get_ready_for_publication` returns nothing and keeps the queue intact;
when at least one slot is free it removes and returns *every* due entry —
`can_publish_now` is re-evaluated per entry but `post_history` never grows
during the drain, so the quota does not decrement mid-drain. -/
theorem get_ready_for_publication_quota (max_posts_per_hour : ℕ)
    (queue : List PublicationScheduler.QueueItem) (post_history : List ℤ) (now : ℤ) :
    (max_posts_per_hour ≤
        (post_history.filter fun t => decide (now - t < 3600)).length →
      (PublicationScheduler.get_ready_for_publication max_posts_per_hour queue
        post_history now).1 = [] ∧
      (PublicationScheduler.get_ready_for_publication max_posts_per_hour queue
        post_history now).2.1 = queue) ∧
    ((post_history.filter fun t => decide (now - t < 3600)).length < max_posts_per_hour →
      (PublicationScheduler.get_ready_for_publication max_posts_per_hour queue
        post_history now).1 = queue.filter (fun x => decide (x.scheduled_for ≤ now)) ∧
      (PublicationScheduler.get_ready_for_publication max_posts_per_hour queue
        post_history now).2.1 =
        queue.filter (fun x => !decide (x.scheduled_for ≤ now))) :=
  ⟨fun h => get_ready_loop_full max_posts_per_hour now queue post_history h,
   fun h => get_ready_loop_free max_posts_per_hour now queue post_history h⟩

/-- Witness for `get_ready_for_publication_quota`: a full window (one slot,
one fresh timestamp) blocks the drain; an empty window lets both due entries
through. -/
theorem get_ready_for_publication_quota_witness :
    ((PublicationScheduler.get_ready_for_publication 1 [queueEntryA, queueEntryB]
        [0] 10).1 = [] ∧
     (PublicationScheduler.get_ready_for_publication 1 [queueEntryA, queueEntryB]
        [0] 10).2.1 = [queueEntryA, queueEntryB]) ∧
    ((PublicationScheduler.get_ready_for_publication 1 [queueEntryA, queueEntryB]
        [] 10).1 =
      [queueEntryA, queueEntryB].filter (fun x => decide (x.scheduled_for ≤ 10)) ∧
     (PublicationScheduler.get_ready_for_publication 1 [queueEntryA, queueEntryB]
        [] 10).2.1 =
      [queueEntryA, queueEntryB].filter (fun x => !decide (x.scheduled_for ≤ 10))) :=
  ⟨(get_ready_for_publication_quota 1 [queueEntryA, queueEntryB] [0] 10).1 (by decide),
   (get_ready_for_publication_quota 1 [queueEntryA, queueEntryB] [] 10).2 (by decide)⟩

/-- Counterexample to C2 as stated: with a cap of 2 and one publish already
in the window there is exactly `k = 1` free slot, yet the drain removes and
returns both due entries, because the quota is never decremented while the
scan runs. -/
theorem drain_exceeds_free_slots_counterexample :
    ((PublicationScheduler.get_ready_for_publication 2 [queueEntryA, queueEntryB]
        [0] 10).1.map fun e => e.news_item.id) = ["a", "b"] ∧
    ¬ ((PublicationScheduler.get_ready_for_publication 2 [queueEntryA, queueEntryB]
        [0] 10).1.length ≤ 1) := by
  constructor
  · rfl
  · decide

/-- C1 evaluated at its failing input: pushing item `a` and then item `b`
into the durable moderation queue and polling two entries yields `b` first —
`LPUSH` prepends at the very head that `LRANGE 0 (limit-1)` reads, so the
store behaves as a LIFO stack even though the source comments call it a FIFO
queue.  The 24-hour TTL refresh on push does hold. -/
theorem moderation_queue_poll_returns_newest_first :
    ((RedisService.get_news_from_moderation_queue
        (RedisService.add_news_to_moderation_queue
          (RedisService.add_news_to_moderation_queue RedisService.emptyState
            sampleItemA).2 sampleItemB).2 2).map fun n => n.id) = ["b", "a"] ∧
    sampleItemA.id ≠ sampleItemB.id ∧
    (RedisService.add_news_to_moderation_queue
        (RedisService.add_news_to_moderation_queue RedisService.emptyState
          sampleItemA).2 sampleItemB).2.moderation_queue_ttl = some 86400 := by
  refine ⟨rfl, by decide, rfl⟩

/-- C9: when the given id is nowhere in the moderation queue, the removal
step reports failure, yet `mark_news_as_published` still creates the
published record (at the head of the published-tracking list, with the 7-day
TTL) and still returns `true`: removal failure never rolls back the record. -/
theorem mark_news_as_published_despite_missing_entry (st : RedisService.RedisState)
    (news_id : String) (message_id : Option ℤ) (now : ℤ)
    (h : ∀ n ∈ st.moderation_queue, n.id ≠ news_id) :
    (RedisService.remove_news_from_moderation_queue st news_id).1 = false ∧
    RedisService.mark_news_as_published st news_id message_id now =
      (true,
       { st with
           published := { news_id := news_id, published_at := now,
                          message_id := message_id } :: st.published,
           published_ttl := some (86400 * 7) }) := by
  have hfind : st.moderation_queue.find? (fun news_data => news_data.id == news_id) = none := by
    apply List.find?_eq_none.mpr
    intro x hx
    simpa using h x hx
  constructor
  · simp [RedisService.remove_news_from_moderation_queue, hfind]
  · simp [RedisService.mark_news_as_published,
      RedisService.remove_news_from_moderation_queue, hfind]

/-- Witness for `mark_news_as_published_despite_missing_entry` on the empty
store. -/
theorem mark_news_as_published_despite_missing_entry_witness :
    (RedisService.remove_news_from_moderation_queue RedisService.emptyState "x").1 = false ∧
    RedisService.mark_news_as_published RedisService.emptyState "x" (some 7) 99 =
      (true,
       { RedisService.emptyState with
           published := [{ news_id := "x", published_at := 99, message_id := some 7 }],
           published_ttl := some (86400 * 7) }) :=
  mark_news_as_published_despite_missing_entry RedisService.emptyState "x" (some 7) 99
    (by simp [RedisService.emptyState])

end F1News
